import Mathlib

/-!
Verification development for the ICAI course slot monitor
(src/icai_slot_alert.py).

The script drives a headless browser through a region / POU / course
cascade, submits a query, and classifies the resulting page as
available or unavailable.  The classification procedure
(check_course_availability, lines 224-265) is a pure decision over the
rendered page content; the surrounding control flow (main, lines
279-338, and the module-level credential validation, lines 48-54) is
embedded as explicit state passing over outcome values.

Page content is modelled by the observations the script makes of it:
the raw page source (driver.page_source), and the list of tables in
document order, each with its number of tr elements and its extracted
text (the CSS selector "table tr" collects tr elements of every table
in the document, and find_element("table") returns the first table).
-/

/-- Configuration constant WEBSITE_URL (line 38 of the source). -/
def WEBSITE_URL : String := "https://icaionlineregistration.org/launchbatchdetail.aspx"

/-- Configuration constant REGION (line 39 of the source). -/
def REGION : String := "Southern"

/-- Configuration constant POU (line 40 of the source). -/
def POU : String := "HYDERABAD"

/-- Configuration constant COURSES_TO_MONITOR (lines 41-45 of the source). -/
def COURSES_TO_MONITOR : List String :=
  ["Advanced (ICITSS) MCS Course",
   "ICITSS - Information Technology",
   "ICITSS - Orientation Course"]

/-- The fixed negative-result phrase list no_batch_indicators
(lines 229-234 of the source), in source order. -/
def no_batch_indicators : List String :=
  ["no batch available",
   "no batch",
   "no records found",
   "batch not available"]

/-- Python str.lower applied to the page source (line 226):
each character is lowercased.  (Char.toLower lowercases the basic
latin letters, which covers every character the indicator phrases
are compared against.) -/
def pyLower (s : String) : String := ⟨s.data.map Char.toLower⟩

/-- Python str.strip: leading and trailing whitespace removed
(line 256 of the source, data_table.text.strip()). -/
def pyStrip (s : String) : String :=
  ⟨((s.data.dropWhile Char.isWhitespace).reverse.dropWhile Char.isWhitespace).reverse⟩

/-- Python substring membership, needle in hay (line 237 of the
source): the needle is a contiguous substring of the hay. -/
def containsPhrase (hay needle : String) : Bool :=
  decide (needle.data <:+: hay.data)

/-- One table of the rendered result page, as the script observes it:
its number of tr elements and its extracted text. -/
structure HtmlTable where
  trCount : Nat
  text : String
deriving DecidableEq

/-- The rendered page content after submission: the raw page source
and the tables in document order. -/
structure Page where
  source : String
  tables : List HtmlTable
deriving DecidableEq

/-- Lines 236-239 of the source: some phrase of no_batch_indicators
occurs in the lowercased page text. -/
def hasNegativePhrase (pageText : String) : Bool :=
  no_batch_indicators.any (fun ind => containsPhrase pageText ind)

/-- Lines 244-245 of the source: find_elements with CSS selector
"table tr" collects the tr elements of every table in the document,
so the row count is the total over all tables. -/
def tableTrRows (p : Page) : Nat :=
  (p.tables.map HtmlTable.trCount).sum

/-- Lines 252-259 of the source: find_element("table") returns the
first table of the document (or raises NoSuchElementException, caught
and passed, when there is none); the branch returns True exactly when
the stripped table text is non-empty and longer than 50 characters. -/
def firstTableEvidence : List HtmlTable → Bool
  | [] => false
  | t :: _ =>
      if (pyStrip t.text).data ≠ [] ∧ 50 < (pyStrip t.text).data.length then true
      else false

/-- The classification procedure of check_course_availability applied
to rendered page content (lines 224-265 of the source), in source
order: negative phrase first, then total tr count, then first-table
text evidence, else the conservative False. -/
def classifyPage (p : Page) : Bool :=
  if hasNegativePhrase (pyLower p.source) then false
  else if 1 < tableTrRows p then true
  else firstTableEvidence p.tables

/-- Outcome of one invocation of check_course_availability: the
cascade timed out (TimeoutException, lines 271-273), some other
exception was raised (lines 274-276, and the inner handler at lines
267-269), or the cascade completed and the rendered page was
classified. -/
inductive ProbeOutcome where
  | timeout
  | errOther
  | classified (p : Page)
deriving DecidableEq

/-- check_course_availability (lines 120-276 of the source) as a
function of the probe outcome: every exception path executes
return False, and the completed path returns the classification. -/
def check_course_availability : ProbeOutcome → Bool
  | ProbeOutcome.timeout => false
  | ProbeOutcome.errOther => false
  | ProbeOutcome.classified p => classifyPage p

/-- Outcome of one iteration of the course loop in main (lines
296-312): either driver.get raised before the check started (the
exception is caught at line 309 and the loop continues), or
check_course_availability was invoked with some probe outcome. -/
inductive CheckOutcome where
  | navFail
  | probed (o : ProbeOutcome)
deriving DecidableEq

/-- Observable events of one run of main, in order: a navigation to a
URL (driver.get, line 301), an invocation of
check_course_availability for a course (line 304), and an outbound
notification for a course (line 307). -/
inductive Event where
  | navigate (url : String)
  | probe (course : String)
  | notify (course : String)
deriving DecidableEq

/-- Events of one iteration of the course loop (lines 296-312): the
navigation always happens first; when it succeeds the course is
probed, and when the probe returns True a notification is sent. -/
def courseEvents : String × CheckOutcome → List Event
  | (_, CheckOutcome.navFail) => [Event.navigate WEBSITE_URL]
  | (c, CheckOutcome.probed o) =>
      Event.navigate WEBSITE_URL :: Event.probe c ::
        (if check_course_availability o then [Event.notify c] else [])

/-- Event trace of the whole course loop: the loop never breaks, so
every configured course contributes its events, in configured order. -/
def runTrace : List (String × CheckOutcome) → List Event
  | [] => []
  | x :: rest => courseEvents x ++ runTrace rest

/-- Whether one loop iteration appends its course to
available_courses (line 305): only a completed check that returned
True does. -/
def courseAvailable : CheckOutcome → Bool
  | CheckOutcome.navFail => false
  | CheckOutcome.probed o => check_course_availability o

/-- The available_courses list accumulated by main (lines 289, 305). -/
def available_courses : List (String × CheckOutcome) → List String
  | [] => []
  | (c, o) :: rest =>
      if courseAvailable o then c :: available_courses rest
      else available_courses rest

/-- Result of one run of main: the process exit status, whether
driver acquisition was attempted, the event trace of the course loop,
the accumulated available courses, how many times driver.quit was
invoked, and whether a teardown warning was logged. -/
structure RunResult where
  exitCode : Nat
  acquireAttempted : Bool
  trace : List Event
  available : List String
  releaseCount : Nat
  releaseWarned : Bool
deriving DecidableEq

/-- Outcome of setup_chrome_driver (lines 86-117): the constructor
raised (re-raised at line 117, caught in main at lines 321-326 with
sys.exit(1), driver still None so the finally block does not quit),
or a driver was acquired. -/
inductive SessionOutcome where
  | acquireFail
  | acquired
deriving DecidableEq

/-- main (lines 279-338) as a function of the session outcome, the
per-course check outcomes, and whether driver.quit raises during
teardown.  With a driver acquired, the inner try/except of the loop
catches every per-course exception and continues, so the run always
reaches the summary and exits zero; the finally block invokes
driver.quit exactly once and catches its failure, logging a warning
(lines 327-334). -/
def runMain : SessionOutcome → List (String × CheckOutcome) → Bool → RunResult
  | SessionOutcome.acquireFail, _, _ => ⟨1, true, [], [], 0, false⟩
  | SessionOutcome.acquired, cs, releaseFails =>
      ⟨0, true, runTrace cs, available_courses cs, 1, releaseFails⟩

/-- Python truthiness of os.getenv output: None and the empty string
are falsy (lines 48-52 of the source). -/
def pyTruthy : Option String → Bool
  | none => false
  | some s => !s.data.isEmpty

/-- The whole process: the module-level credential validation (lines
48-54) runs before main, and on a missing credential calls
sys.exit(1) before any driver is created and before any course is
checked; otherwise main runs. -/
def runProcess (token chatId : Option String) (sess : SessionOutcome)
    (cs : List (String × CheckOutcome)) (releaseFails : Bool) : RunResult :=
  if pyTruthy token && pyTruthy chatId then runMain sess cs releaseFails
  else ⟨1, false, [], [], 0, false⟩

/-- Courses whose check_course_availability invocation actually ran. -/
def isProbed : CheckOutcome → Bool
  | CheckOutcome.navFail => false
  | CheckOutcome.probed _ => true

/-- The probed course names of a trace, in trace order. -/
def probeNames : List Event → List String
  | [] => []
  | Event.probe c :: rest => c :: probeNames rest
  | _ :: rest => probeNames rest

/-- Number of navigations in a trace. -/
def navCount : List Event → Nat
  | [] => 0
  | Event.navigate _ :: rest => navCount rest + 1
  | _ :: rest => navCount rest

/-- Last element of a list of events, with a fallback. -/
def lastOpt (p : Option Event) : List Event → Option Event
  | [] => p
  | e :: rest => lastOpt (some e) rest

/-- Guard used by freshOk: a probe event is admissible only when the
immediately preceding event was a navigation to WEBSITE_URL. -/
def probeGuard (prev : Option Event) : Event → Bool
  | Event.probe _ => decide (prev = some (Event.navigate WEBSITE_URL))
  | _ => true

/-- Checks that every probe in the trace is immediately preceded by a
fresh navigation to WEBSITE_URL. -/
def freshOk (prev : Option Event) : List Event → Bool
  | [] => true
  | e :: rest => probeGuard prev e && freshOk (some e) rest

/-- Modelled from the claim for comparison: the three-phrase
indicator set obtained by dropping the first phrase of
no_batch_indicators. -/
def reduced_no_batch_indicators : List String :=
  ["no batch",
   "no records found",
   "batch not available"]

/-- Modelled from the claim for comparison: phrase matching against
the reduced three-phrase indicator set. -/
def reducedHasNegativePhrase (pageText : String) : Bool :=
  reduced_no_batch_indicators.any (fun ind => containsPhrase pageText ind)

/-- Concrete run configuration used by witnesses: the three monitored
courses, one classified available, one timing out, one failing to
navigate. -/
def sampleOutcomes : List (String × CheckOutcome) :=
  [("Advanced (ICITSS) MCS Course",
      CheckOutcome.probed (ProbeOutcome.classified ⟨"results", [⟨3, "row one row two"⟩]⟩)),
   ("ICITSS - Information Technology",
      CheckOutcome.probed ProbeOutcome.timeout),
   ("ICITSS - Orientation Course",
      CheckOutcome.navFail)]

/-! Helper lemmas shared by the claim theorems. -/

lemma classifyPage_of_negPhrase (src : String) (tables : List HtmlTable)
    (h : hasNegativePhrase (pyLower src) = true) :
    classifyPage ⟨src, tables⟩ = false := by
  simp [classifyPage, h]

lemma containsPhrase_mono (pt a b : String)
    (hab : a.data <:+: b.data) (h : containsPhrase pt b = true) :
    containsPhrase pt a = true := by
  unfold containsPhrase at h ⊢
  exact decide_eq_true (List.IsInfix.trans hab (of_decide_eq_true h))

/-- Claim C1: a page whose lowercased text contains any phrase of the
fixed negative-result set classifies unavailable, whatever tables the
page carries; the phrase rule runs before the table rules, and
classifyPage is by construction a deterministic function of the page
content. -/
theorem C1_negative_phrase_forces_unavailable (src : String) (tables : List HtmlTable)
    (h : ∃ ind ∈ no_batch_indicators, containsPhrase (pyLower src) ind = true) :
    classifyPage ⟨src, tables⟩ = false := by
  obtain ⟨ind, hmem, hc⟩ := h
  exact classifyPage_of_negPhrase src tables (List.any_eq_true.mpr ⟨ind, hmem, hc⟩)

theorem C1_witness :
    (∃ ind ∈ no_batch_indicators,
        containsPhrase (pyLower "No Batch Available") ind = true)
    ∧ classifyPage ⟨"No Batch Available", [⟨3, "some table text"⟩]⟩ = false :=
  ⟨⟨"no batch available", by decide, by decide⟩,
   C1_negative_phrase_forces_unavailable "No Batch Available" [⟨3, "some table text"⟩]
     ⟨"no batch available", by decide, by decide⟩⟩

/-- Claim C3: with no negative phrase on the page, a table with more
than one row classifies available (its rows alone push the
document-wide tr count above one). -/
theorem C3_multirow_table_available (p : Page)
    (hneg : hasNegativePhrase (pyLower p.source) = false)
    (t : HtmlTable) (hmem : t ∈ p.tables) (hrows : 1 < t.trCount) :
    classifyPage p = true := by
  have hsum : t.trCount ≤ tableTrRows p :=
    List.le_sum_of_mem (List.mem_map_of_mem HtmlTable.trCount hmem)
  have h1 : 1 < tableTrRows p := lt_of_lt_of_le hrows hsum
  simp [classifyPage, hneg, h1]

theorem C3_witness :
    hasNegativePhrase (pyLower "batch list") = false
    ∧ (⟨3, "three rows of data"⟩ : HtmlTable) ∈ (⟨"batch list", [⟨3, "three rows of data"⟩]⟩ : Page).tables
    ∧ 1 < (3 : Nat)
    ∧ classifyPage ⟨"batch list", [⟨3, "three rows of data"⟩]⟩ = true :=
  ⟨by decide, by decide, by decide,
   C3_multirow_table_available ⟨"batch list", [⟨3, "three rows of data"⟩]⟩ (by decide)
     ⟨3, "three rows of data"⟩ (by decide) (by decide)⟩

/-- Claim C4, counterexample: a page with no negative phrase, two
tables of one row each, and every table text far below the 50
character threshold classifies available, because the row count uses
the document-wide selector "table tr"; the claim as stated demands
unavailable here. -/
theorem C4_counterexample :
    hasNegativePhrase (pyLower (Page.mk "layout" [⟨1, "a"⟩, ⟨1, "b"⟩]).source) = false
    ∧ (∀ t ∈ (Page.mk "layout" [⟨1, "a"⟩, ⟨1, "b"⟩]).tables, t.trCount ≤ 1)
    ∧ (∀ t ∈ (Page.mk "layout" [⟨1, "a"⟩, ⟨1, "b"⟩]).tables, (pyStrip t.text).data.length ≤ 50)
    ∧ classifyPage (Page.mk "layout" [⟨1, "a"⟩, ⟨1, "b"⟩]) = true := by
  decide

/-- Claim C4 as amended: with no negative phrase, at most one tr
element in tables across the whole document, and a first table (when
present) whose stripped text does not exceed 50 characters, the
classifier returns unavailable, the conservative default. -/
theorem C4_amended_conservative_default (p : Page)
    (hneg : hasNegativePhrase (pyLower p.source) = false)
    (hrows : tableTrRows p ≤ 1)
    (hfirst : ∀ t, p.tables.head? = some t → (pyStrip t.text).data.length ≤ 50) :
    classifyPage p = false := by
  have hnot : ¬ 1 < tableTrRows p := Nat.not_lt.mpr hrows
  have hev : firstTableEvidence p.tables = false := by
    cases htab : p.tables with
    | nil => rfl
    | cons t rest =>
        have hlen : (pyStrip t.text).data.length ≤ 50 := by
          apply hfirst t
          rw [htab]
          rfl
        have hcond : ¬((pyStrip t.text).data ≠ [] ∧ 50 < (pyStrip t.text).data.length) :=
          fun hc => Nat.not_lt.mpr hlen hc.2
        show firstTableEvidence (t :: rest) = false
        simp only [firstTableEvidence]
        rw [if_neg hcond]
  simp [classifyPage, hneg, hnot, hev]

theorem C4_amended_witness :
    hasNegativePhrase (pyLower "search results") = false
    ∧ tableTrRows ⟨"search results", [⟨1, "header"⟩]⟩ ≤ 1
    ∧ (∀ t, (⟨"search results", [⟨1, "header"⟩]⟩ : Page).tables.head? = some t →
        (pyStrip t.text).data.length ≤ 50)
    ∧ classifyPage ⟨"search results", [⟨1, "header"⟩]⟩ = false :=
  ⟨by decide, by decide, by decide,
   C4_amended_conservative_default ⟨"search results", [⟨1, "header"⟩]⟩
     (by decide) (by decide) (by decide)⟩

/-- Claim C9: the row rule counts tr elements with the document-wide
selector "table tr", so any page without a negative phrase carrying
at least two tr elements across its tables, in any tables, classifies
available. -/
theorem C9_document_wide_row_count (p : Page)
    (hneg : hasNegativePhrase (pyLower p.source) = false)
    (h : 2 ≤ tableTrRows p) :
    classifyPage p = true := by
  have h1 : 1 < tableTrRows p := h
  simp [classifyPage, hneg, h1]

theorem C9_witness :
    hasNegativePhrase (pyLower "two layout tables") = false
    ∧ 2 ≤ tableTrRows ⟨"two layout tables", [⟨1, "x"⟩, ⟨1, "y"⟩]⟩
    ∧ classifyPage ⟨"two layout tables", [⟨1, "x"⟩, ⟨1, "y"⟩]⟩ = true :=
  ⟨by decide, by decide,
   C9_document_wide_row_count ⟨"two layout tables", [⟨1, "x"⟩, ⟨1, "y"⟩]⟩
     (by decide) (by decide)⟩

/-- Claim C10: the four-phrase indicator set decides exactly as the
three-phrase set without the first phrase, because a page containing
the phrase no batch available also contains its leading substring no
batch; consequently any page whose lowercased text contains no batch
classifies unavailable. -/
theorem C10_indicator_set_redundancy (src : String) (tables : List HtmlTable) :
    hasNegativePhrase (pyLower src) = reducedHasNegativePhrase (pyLower src)
    ∧ (containsPhrase (pyLower src) "no batch" = true →
        classifyPage ⟨src, tables⟩ = false) := by
  constructor
  · have hmono : containsPhrase (pyLower src) "no batch available" = true →
        containsPhrase (pyLower src) "no batch" = true := by
      intro h
      exact containsPhrase_mono (pyLower src) "no batch" "no batch available"
        (by decide) h
    simp only [hasNegativePhrase, reducedHasNegativePhrase,
      no_batch_indicators, reduced_no_batch_indicators, List.any_cons, List.any_nil]
    cases h2 : containsPhrase (pyLower src) "no batch" with
    | true => simp [h2]
    | false =>
        have h1 : containsPhrase (pyLower src) "no batch available" = false := by
          cases h1 : containsPhrase (pyLower src) "no batch available" with
          | true => rw [hmono h1] at h2; exact absurd h2 (by simp)
          | false => rfl
        simp [h1, h2]
  · intro h
    apply classifyPage_of_negPhrase
    unfold hasNegativePhrase no_batch_indicators
    simp only [List.any_cons, List.any_nil, h]
    simp

theorem C10_witness :
    containsPhrase (pyLower "Sorry No Batch here") "no batch" = true
    ∧ classifyPage ⟨"Sorry No Batch here", [⟨9, "many rows of data in a long table text body"⟩]⟩ = false :=
  ⟨by decide,
   (C10_indicator_set_redundancy "Sorry No Batch here"
      [⟨9, "many rows of data in a long table text body"⟩]).2 (by decide)⟩

/-! Trace lemmas for the course loop. -/

lemma runTrace_append (a b : List (String × CheckOutcome)) :
    runTrace (a ++ b) = runTrace a ++ runTrace b := by
  induction a with
  | nil => rfl
  | cons x rest ih => simp [runTrace, ih]

lemma probeNames_append (a b : List Event) :
    probeNames (a ++ b) = probeNames a ++ probeNames b := by
  induction a with
  | nil => rfl
  | cons e rest ih => cases e <;> simp [probeNames, ih]

lemma navCount_append (a b : List Event) :
    navCount (a ++ b) = navCount a + navCount b := by
  induction a with
  | nil => simp [navCount]
  | cons e rest ih =>
      cases e with
      | navigate u =>
          simp [navCount, ih]
          omega
      | probe c => simp [navCount, ih]
      | notify c => simp [navCount, ih]

lemma probeNames_courseEvents (c : String) (o : CheckOutcome) :
    probeNames (courseEvents (c, o)) = if isProbed o then [c] else [] := by
  cases o with
  | navFail => rfl
  | probed po =>
      simp only [courseEvents, isProbed, if_pos]
      cases check_course_availability po <;> simp [probeNames]

lemma navCount_courseEvents (c : String) (o : CheckOutcome) :
    navCount (courseEvents (c, o)) = 1 := by
  cases o with
  | navFail => rfl
  | probed po =>
      simp only [courseEvents]
      cases check_course_availability po <;> simp [navCount]

lemma probeNames_runTrace (cs : List (String × CheckOutcome)) :
    probeNames (runTrace cs) = (cs.filter (fun x => isProbed x.2)).map Prod.fst := by
  induction cs with
  | nil => rfl
  | cons x rest ih =>
      obtain ⟨c, o⟩ := x
      rw [runTrace, probeNames_append, probeNames_courseEvents, ih, List.filter_cons]
      cases h : isProbed o <;> simp [h]

lemma navCount_runTrace (cs : List (String × CheckOutcome)) :
    navCount (runTrace cs) = cs.length := by
  induction cs with
  | nil => rfl
  | cons x rest ih =>
      obtain ⟨c, o⟩ := x
      rw [runTrace, navCount_append, navCount_courseEvents, ih, List.length_cons]
      omega

lemma probeNames_sublist (cs : List (String × CheckOutcome)) :
    List.Sublist (probeNames (runTrace cs)) (cs.map Prod.fst) := by
  rw [probeNames_runTrace]
  exact List.Sublist.map Prod.fst (List.filter_sublist cs)

lemma freshOk_runTrace (cs : List (String × CheckOutcome)) :
    ∀ prev, freshOk prev (runTrace cs) = true := by
  induction cs with
  | nil => intro prev; rfl
  | cons x rest ih =>
      intro prev
      obtain ⟨c, o⟩ := x
      cases o with
      | navFail =>
          show freshOk prev (Event.navigate WEBSITE_URL :: runTrace rest) = true
          simp [freshOk, probeGuard, ih]
      | probed po =>
          show freshOk prev (Event.navigate WEBSITE_URL :: Event.probe c ::
            ((if check_course_availability po then [Event.notify c] else []) ++ runTrace rest)) = true
          cases check_course_availability po <;>
            simp [freshOk, probeGuard, ih]

/-- Claim C2, counterexample: a check whose cascade times out does
emit an availability result: check_course_availability executes
return False on the TimeoutException path, the very value a completed
check returns for a page with no slots, so a failed check is not
distinct from a checked page without slots. -/
theorem C2_counterexample :
    check_course_availability ProbeOutcome.timeout = false
    ∧ check_course_availability
        (ProbeOutcome.classified ⟨"no batch available", []⟩) = false := by
  constructor
  · rfl
  · decide

/-- Claim C2 as amended: a course-check that fails (timeout or any
other exception inside check_course_availability) returns False, the
unavailable result, indistinguishable from a checked page with no
slot; no notification is emitted for it, and the remaining courses of
the run are still checked, each contributing its full event list to
the trace. -/
theorem C2_amended_failed_check (pre post : List (String × CheckOutcome))
    (c : String) (o : ProbeOutcome)
    (hfail : o = ProbeOutcome.timeout ∨ o = ProbeOutcome.errOther) :
    check_course_availability o = false
    ∧ Event.notify c ∉ courseEvents (c, CheckOutcome.probed o)
    ∧ runTrace (pre ++ (c, CheckOutcome.probed o) :: post)
        = runTrace pre ++ courseEvents (c, CheckOutcome.probed o) ++ runTrace post := by
  have hres : check_course_availability o = false := by
    cases hfail with
    | inl h => subst h; rfl
    | inr h => subst h; rfl
  refine ⟨hres, ?_, ?_⟩
  · simp [courseEvents, hres]
  · rw [runTrace_append]
    show runTrace pre ++ (courseEvents (c, CheckOutcome.probed o) ++ runTrace post)
      = runTrace pre ++ courseEvents (c, CheckOutcome.probed o) ++ runTrace post
    rw [List.append_assoc]

theorem C2_amended_witness :
    check_course_availability ProbeOutcome.timeout = false
    ∧ Event.notify "ICITSS - Information Technology"
        ∉ courseEvents ("ICITSS - Information Technology",
            CheckOutcome.probed ProbeOutcome.timeout)
    ∧ runTrace ([("Advanced (ICITSS) MCS Course", CheckOutcome.navFail)]
          ++ ("ICITSS - Information Technology", CheckOutcome.probed ProbeOutcome.timeout)
          :: [("ICITSS - Orientation Course", CheckOutcome.navFail)])
        = runTrace [("Advanced (ICITSS) MCS Course", CheckOutcome.navFail)]
          ++ courseEvents ("ICITSS - Information Technology",
              CheckOutcome.probed ProbeOutcome.timeout)
          ++ runTrace [("ICITSS - Orientation Course", CheckOutcome.navFail)] :=
  C2_amended_failed_check
    [("Advanced (ICITSS) MCS Course", CheckOutcome.navFail)]
    [("ICITSS - Orientation Course", CheckOutcome.navFail)]
    "ICITSS - Information Technology" ProbeOutcome.timeout (Or.inl rfl)

/-- Claim C5: in every run the probed courses form a sublist of the
configured course list (so probes happen in configured order), no
course with a distinct name is probed twice when the configured names
are distinct, and every probe is immediately preceded by a fresh
navigation to WEBSITE_URL. -/
theorem C5_probe_order_and_fresh_navigation (cs : List (String × CheckOutcome))
    (hnd : (cs.map Prod.fst).Nodup) :
    List.Sublist (probeNames (runTrace cs)) (cs.map Prod.fst)
    ∧ (probeNames (runTrace cs)).Nodup
    ∧ freshOk none (runTrace cs) = true :=
  ⟨probeNames_sublist cs,
   List.Sublist.nodup (probeNames_sublist cs) hnd,
   freshOk_runTrace cs none⟩

theorem C5_witness :
    List.Sublist (probeNames (runTrace sampleOutcomes)) (sampleOutcomes.map Prod.fst)
    ∧ (probeNames (runTrace sampleOutcomes)).Nodup
    ∧ freshOk none (runTrace sampleOutcomes) = true :=
  C5_probe_order_and_fresh_navigation sampleOutcomes (by decide)

/-- Claim C6: once the driver is acquired, the run exits with status
zero after attempting every configured course (one navigation per
configured course appears in the trace), whatever the per-course
outcomes and the teardown behaviour are. -/
theorem C6_acquired_run_exits_zero (cs : List (String × CheckOutcome)) (rf : Bool) :
    (runMain SessionOutcome.acquired cs rf).exitCode = 0
    ∧ navCount (runMain SessionOutcome.acquired cs rf).trace = cs.length :=
  ⟨rfl, navCount_runTrace cs⟩

/-- Claim C7: with either notification credential missing (unset or
empty, both falsy in Python), the process exits with status one, no
driver acquisition is attempted, and no course is checked. -/
theorem C7_missing_credentials_fatal (token chatId : Option String)
    (sess : SessionOutcome) (cs : List (String × CheckOutcome)) (rf : Bool)
    (h : pyTruthy token = false ∨ pyTruthy chatId = false) :
    (runProcess token chatId sess cs rf).exitCode = 1
    ∧ (runProcess token chatId sess cs rf).acquireAttempted = false
    ∧ (runProcess token chatId sess cs rf).trace = [] := by
  have hc : (pyTruthy token && pyTruthy chatId) = false := by
    cases h with
    | inl h => simp [h]
    | inr h => simp [h]
  simp [runProcess, hc]

theorem C7_witness :
    (runProcess none (some "12345") SessionOutcome.acquired sampleOutcomes false).exitCode = 1
    ∧ (runProcess none (some "12345") SessionOutcome.acquired sampleOutcomes false).acquireAttempted = false
    ∧ (runProcess none (some "12345") SessionOutcome.acquired sampleOutcomes false).trace = [] :=
  C7_missing_credentials_fatal none (some "12345") SessionOutcome.acquired
    sampleOutcomes false (Or.inl rfl)

/-- Claim C8: for every run in which the session was acquired,
driver.quit is invoked exactly once, whatever the per-course outcomes
are, and a failure during teardown is only recorded as a warning: it
changes neither the exit status nor the trace nor the available list.
(When acquisition itself fails no session exists, so there is nothing
to release and the finally block skips the quit call.) -/
theorem C8_release_once_and_tolerant (cs : List (String × CheckOutcome)) (rf : Bool) :
    (runMain SessionOutcome.acquired cs rf).releaseCount = 1
    ∧ (runMain SessionOutcome.acquired cs rf).exitCode
        = (runMain SessionOutcome.acquired cs false).exitCode
    ∧ (runMain SessionOutcome.acquired cs rf).trace
        = (runMain SessionOutcome.acquired cs false).trace
    ∧ (runMain SessionOutcome.acquired cs rf).available
        = (runMain SessionOutcome.acquired cs false).available :=
  ⟨rfl, rfl, rfl, rfl⟩
